import Mathlib

/-!
Shallow embedding of the `Recorder` component of gather-metadata
(src/gathermetadata/__main__.py).

External effects are supplied by a `World` oracle: the process environment,
the behaviour of `shlex.split` on the expanded command string, the observable
behaviour of the spawned process (Popen/communicate), and the wall clock
(durations).  Everything the Python code itself decides is translated
directly from the source: template formatting and its KeyError, the
`assert res.shell` on the split argument vector, output persistence via
`_save_nonzero`, the fatal-stderr ValueError, the exception handlers, and
which `Result` fields are set on each path.
-/

namespace GatherMetadata

/-- Raw bytes of a captured output stream (Python `bytes`). -/
abbrev Bytes := List Nat

/-- One piece of a command template as parsed by Python `str.format`:
a literal run, or a named replacement field. -/
inductive Tok where
  | lit (s : String)
  | ph (v : String)
deriving DecidableEq

/-- A command template in parsed form. -/
abbrev Template := List Tok

/-- Python dict lookup over an association list (first match wins). -/
def lookupParam : List (String × String) → String → Option String
  | [], _ => none
  | (k, val) :: rest, v => if k = v then some val else lookupParam rest v

/-- Python `str.format` over simple named fields: substitute each field from
`params`, left to right, raising KeyError (modelled as `Except.error`) with the
first field name that is not a key of `params`. -/
def formatTemplate (params : List (String × String)) : Template → Except String String
  | [] => Except.ok ""
  | Tok.lit s :: rest => (formatTemplate params rest).map (fun t => s ++ t)
  | Tok.ph v :: rest =>
    match lookupParam params v with
    | some val => (formatTemplate params rest).map (fun t => val ++ t)
    | none => Except.error v

/-- Rendering of a template back to its source string (the raw command string:
the value the source passes as the `command` parameter). -/
def renderTok : Tok → String
  | Tok.lit s => s
  | Tok.ph v => "\x7b" ++ v ++ "\x7d"

/-- The raw command string of a template. -/
def renderTemplate (t : Template) : String :=
  String.join (t.map renderTok)

/-- Observable behaviour of the spawn/communicate step for one command.
`fileNotFound` is Popen raising FileNotFoundError; `calledProcessError`
mirrors the source's `except CalledProcessError` handler (lines 212-215;
Popen/communicate never actually raise it, the handler is kept for
fidelity); `completed` is `communicate` returning within the timeout with
the process's exit status; `timedOut` is TimeoutExpired followed by
`kill()` and a draining `communicate()`, whose post-kill exit status
(normally the negated kill signal, e.g. -9) is `killCode`. -/
inductive SpawnResult where
  | fileNotFound (msg : String)
  | calledProcessError (code : Int)
  | completed (stdout stderr : Bytes) (returncode : Int)
  | timedOut (stdout stderr : Bytes) (killCode : Int)
deriving DecidableEq

/-- The `Recorder`'s constructor state (lines 133-140). -/
structure Recorder where
  outdir : String
  timeout : Nat
  errors_fatal : Bool
  logtimethres : Nat
deriving DecidableEq

/-- The external world: process environment, `shlex.split`, per-command
process behaviour (keyed by catalog name and argv), and the clock readings
(start time and the two measured durations, per catalog name). -/
structure World where
  env : List (String × String)
  split : String → List String
  exec : String → List String → SpawnResult
  startAt : String → Nat
  execDur : String → Nat
  ioDur : String → Nat

/-- The `Result` dataclass (lines 113-127).  Times are abstract clock values
(`Nat`), taken from the `World`, since only their presence or absence is
program-determined. -/
structure Result where
  name : String
  command : Template
  starttime : Nat
  exectime : Option Nat := none
  iotime : Option Nat := none
  success : Bool := false
  return_code : Option Int := none
  shell : Option (List String) := none
  stdout_file : Option String := none
  stderr_file : Option String := none
  error_message : Option String := none
deriving DecidableEq

/-- One file written under the output directory. -/
structure FileWrite where
  path : String
  data : Bytes
deriving DecidableEq

/-- `parameters` of `__make_command` (lines 144-151): the environment
updated with `outdir`, `name` and the raw command string, the update
overriding the environment. -/
def mkParams (rec : Recorder) (w : World) (name : String) (tpl : Template) :
    List (String × String) :=
  [("outdir", rec.outdir), ("name", name), ("command", renderTemplate tpl)] ++ w.env

/-- `__make_command` (lines 142-152): format the template over `parameters`,
then split the result into an argument vector. -/
def makeCommand (rec : Recorder) (w : World) (name : String) (tpl : Template) :
    Except String (List String) :=
  match formatTemplate (mkParams rec w name tpl) tpl with
  | Except.error v => Except.error v
  | Except.ok s => Except.ok (w.split s)

/-- `str(self.outdir / name)`. -/
def savePath (rec : Recorder) (fname : String) : String :=
  rec.outdir ++ "/" ++ fname

/-- `_save_nonzero` (lines 154-167): write data to `outdir/fname` iff it is
non-empty; return the recorded filename and the write performed. -/
def saveNonzero (rec : Recorder) (fname : String) (data : Bytes) :
    Option String × List FileWrite :=
  if data = [] then (none, [])
  else (some (savePath rec fname), [⟨savePath rec fname, data⟩])

/-- The message of the KeyError handler (line 211). -/
def keyErrorMsg (v : String) : String :=
  "KeyError: Undefined variable " ++ v

/-- Outcome of one `record` call.  `done` returns a `Result` (as a dict) and
the file writes performed; `fatalStderr` is the uncaught ValueError of the
fatal-stderr policy escaping `record` — the partial `Result` local (carried
here for specification purposes) is discarded, only the file writes persist;
`assertFailed` is the uncaught AssertionError of `assert res.shell` on an
empty argument vector (line 185). -/
inductive RecOutcome where
  | done (res : Result) (writes : List FileWrite)
  | fatalStderr (res : Result) (writes : List FileWrite)
  | assertFailed
deriving DecidableEq

/-- `Result(name, command)` (line 182): only `name`, `command` and
`starttime` are set; everything else has its dataclass default. -/
def initResult (w : World) (name : String) (tpl : Template) : Result :=
  { name := name, command := tpl, starttime := w.startAt name }

/-- Lines 197-208, the shared tail after `communicate` returns (normal exit
or post-kill drain): set `exectime`, persist non-empty streams, then either
raise the fatal-stderr ValueError or set `iotime`, `return_code` and
`success`. -/
def afterWait (rec : Recorder) (w : World) (name : String) (res : Result)
    (out err : Bytes) (code : Int) : RecOutcome :=
  let res1 := { res with exectime := some (w.execDur name) }
  let so := saveNonzero rec (name ++ ".out") out
  let se := saveNonzero rec (name ++ ".err") err
  let res2 := { res1 with stdout_file := so.1, stderr_file := se.1 }
  if err ≠ [] ∧ rec.errors_fatal then
    RecOutcome.fatalStderr res2 (so.2 ++ se.2)
  else
    RecOutcome.done
      { res2 with iotime := some (w.ioDur name), return_code := some code, success := true }
      (so.2 ++ se.2)

/-- `record` (lines 169-224). -/
def record (rec : Recorder) (w : World) (name : String) (tpl : Template) : RecOutcome :=
  let res := initResult w name tpl
  match makeCommand rec w name tpl with
  | Except.error v =>
    RecOutcome.done { res with error_message := some (keyErrorMsg v) } []
  | Except.ok argv =>
    let res1 := { res with shell := some argv }
    if argv = [] then RecOutcome.assertFailed
    else
      match w.exec name argv with
      | SpawnResult.fileNotFound msg =>
        RecOutcome.done { res1 with error_message := some ("FileNotFoundError: " ++ msg) } []
      | SpawnResult.calledProcessError c =>
        RecOutcome.done
          { res1 with error_message := some ("CalledProcessError: retrun code: " ++ toString c),
                      return_code := some c } []
      | SpawnResult.completed out err code => afterWait rec w name res1 out err code
      | SpawnResult.timedOut out err kc => afterWait rec w name res1 out err kc

/-- Did `record` return normally? -/
def RecOutcome.isDone : RecOutcome → Bool
  | RecOutcome.done _ _ => true
  | _ => false

/-- The file writes a `record` call performed (on every outcome, including
the escaping ones — writes happen before the raise). -/
def recWrites : RecOutcome → List FileWrite
  | RecOutcome.done _ ws => ws
  | RecOutcome.fatalStderr _ ws => ws
  | RecOutcome.assertFailed => []

/-- The `return_code` field of the returned `Result`, when one was returned. -/
def recReturnCode : RecOutcome → Option Int
  | RecOutcome.done res _ => res.return_code
  | _ => none

/-- The `stdout_file` field of the returned `Result`, when one was returned. -/
def recStdoutFile : RecOutcome → Option String
  | RecOutcome.done res _ => res.stdout_file
  | _ => none

/-- The `error_message` field of the returned `Result`, when one was returned. -/
def recErrorMessage : RecOutcome → Option String
  | RecOutcome.done res _ => res.error_message
  | _ => none

/-- Outcome of `record_all`.  `done` is the results dict in catalog order
together with all file writes; `aborted` is an exception escaping the loop —
the local results dict is lost, only the file writes performed so far
persist. -/
inductive RunOutcome where
  | done (results : List (String × Result)) (writes : List FileWrite)
  | aborted (writes : List FileWrite)
deriving DecidableEq

/-- Did `record_all` return a results mapping? -/
def RunOutcome.isDone : RunOutcome → Bool
  | RunOutcome.done _ _ => true
  | RunOutcome.aborted _ => false

/-- `record_all` (lines 226-231): iterate the catalog in order, storing each
entry's `Result` under its name; an exception escaping `record` aborts the
loop and discards the dict. -/
def recordAll (rec : Recorder) (w : World) : List (String × Template) → RunOutcome
  | [] => RunOutcome.done [] []
  | (n, t) :: rest =>
    match record rec w n t with
    | RecOutcome.done res ws =>
      match recordAll rec w rest with
      | RunOutcome.done rs ws2 => RunOutcome.done ((n, res) :: rs) (ws ++ ws2)
      | RunOutcome.aborted ws2 => RunOutcome.aborted (ws ++ ws2)
    | RecOutcome.fatalStderr _ ws => RunOutcome.aborted ws
    | RecOutcome.assertFailed => RunOutcome.aborted []

/-! ### Concrete fixtures (recorders, worlds, templates) used to evaluate the
definitions on explicit inputs -/

/-- A `Recorder` with errors-fatal disabled (outdir `about`, 10 s timeout,
1 s log threshold), as built by `main` without `--errors-fatal`. -/
def recPlain : Recorder := ⟨"about", 10, false, 1⟩

/-- A `Recorder` with errors-fatal enabled. -/
def recFatal : Recorder := ⟨"about", 10, true, 1⟩

/-- A split oracle agreeing with `shlex.split` on the strings it is applied
to here: the empty string splits to no words, anything else is kept as a
single word. -/
def splitSimple (s : String) : List String :=
  if s = "" then [] else [s]

/-- A world in which every spawned process behaves as `sr`. -/
def mkWorld (sr : SpawnResult) : World where
  env := [("HOME", "/root")]
  split := splitSimple
  exec := fun _ _ => sr
  startAt := fun _ => 100
  execDur := fun _ => 2
  ioDur := fun _ => 1

/-- Template `echo hello` (no placeholders). -/
def tplEcho : Template := [Tok.lit "echo hello"]

/-- Template `sleep 99` (no placeholders). -/
def tplSleep : Template := [Tok.lit "sleep 99"]

/-- Template `ls /nope` (no placeholders). -/
def tplErr : Template := [Tok.lit "ls /nope"]

/-- Template of the `scontrol` catalog entry style: references the
environment variable `SLURM_JOBID`. -/
def tplUndef : Template := [Tok.lit "scontrol show jobid ", Tok.ph "SLURM_JOBID"]

/-- The empty command template: expands to the empty string, which
`shlex.split` splits to an empty argument vector. -/
def tplEmptyCmd : Template := []

/-- World where every command prints `hello` and a newline on stdout and
exits 0. -/
def wEcho : World := mkWorld (SpawnResult.completed [104, 101, 108, 108, 111, 10] [] 0)

/-- World where every command completes silently with exit status 0. -/
def wQuiet : World := mkWorld (SpawnResult.completed [] [] 0)

/-- World where every command writes the byte `1` to stderr and exits 0. -/
def wStderr : World := mkWorld (SpawnResult.completed [] [49] 0)

/-- World where every command times out with the byte `1` of partial stderr
and is killed (post-kill status -9). -/
def wTimeoutStderr : World := mkWorld (SpawnResult.timedOut [] [49] (-9))

/-- World where every command times out with the byte `2` of partial stdout,
empty stderr, and is killed (post-kill status -9). -/
def wTimeoutQuiet : World := mkWorld (SpawnResult.timedOut [50] [] (-9))

/-- World where spawning any command raises FileNotFoundError. -/
def wNoBinary : World :=
  mkWorld (SpawnResult.fileNotFound "Errno 2 No such file or directory: /nonexistent-binary-xyz")

/-- World where every command completes silently with exit status 7. -/
def wExit7 : World := mkWorld (SpawnResult.completed [104] [] 7)

/-- World where every command completes with the byte `1` on stderr and exit
status 7. -/
def wExit7Stderr : World := mkWorld (SpawnResult.completed [] [49] 7)

/-- World where the command named `bad` writes the byte `1` to stderr and
every other command prints a byte to stdout only. -/
def wC10 : World :=
  { mkWorld (SpawnResult.completed [104] [] 0) with
      exec := fun n _ =>
        if n = "bad" then SpawnResult.completed [] [49] 0
        else SpawnResult.completed [104] [] 0 }

/-- The `Result` that `record recPlain wEcho "echo" tplEcho` returns. -/
def resEcho : Result :=
  { name := "echo", command := tplEcho, starttime := 100, exectime := some 2,
    iotime := some 1, success := true, return_code := some 0,
    shell := some ["echo hello"], stdout_file := some "about/echo.out",
    stderr_file := none, error_message := none }

/-- The file writes that `record recPlain wEcho "echo" tplEcho` performs. -/
def wsEcho : List FileWrite := [⟨"about/echo.out", [104, 101, 108, 108, 111, 10]⟩]

/-- The partial `Result` discarded when `record recFatal wC10 "bad" tplErr`
raises the fatal-stderr ValueError. -/
def resBadFatal : Result :=
  { name := "bad", command := tplErr, starttime := 100, exectime := some 2,
    iotime := none, success := false, return_code := none,
    shell := some ["ls /nope"], stdout_file := none,
    stderr_file := some "about/bad.err", error_message := none }

/-- The file writes performed by `record recFatal wC10 "bad" tplErr` before
the fatal-stderr ValueError escapes. -/
def wsBadFatal : List FileWrite := [⟨"about/bad.err", [49]⟩]

/-! ### Path lemmas for `record` -/

/-- On a formatting KeyError, `record` returns a failed `Result` with the
KeyError message and performs no writes. -/
theorem record_of_mk_error (rec : Recorder) (w : World) (n : String) (t : Template)
    (v : String) (h : makeCommand rec w n t = Except.error v) :
    record rec w n t =
      RecOutcome.done { initResult w n t with error_message := some (keyErrorMsg v) } [] := by
  unfold record
  rw [h]

/-- On a spawn FileNotFoundError, `record` returns a failed `Result` with the
FileNotFoundError message and performs no writes. -/
theorem record_of_fnf (rec : Recorder) (w : World) (n : String) (t : Template)
    (argv : List String) (msg : String)
    (hmk : makeCommand rec w n t = Except.ok argv) (hargv : argv ≠ [])
    (hex : w.exec n argv = SpawnResult.fileNotFound msg) :
    record rec w n t =
      RecOutcome.done
        { initResult w n t with shell := some argv,
                                error_message := some ("FileNotFoundError: " ++ msg) } [] := by
  unfold record
  rw [hmk]
  simp only [if_neg hargv, hex]

/-- When `communicate` returns within the timeout, `record` continues with
the shared tail `afterWait`. -/
theorem record_of_completed (rec : Recorder) (w : World) (n : String) (t : Template)
    (argv : List String) (out err : Bytes) (code : Int)
    (hmk : makeCommand rec w n t = Except.ok argv) (hargv : argv ≠ [])
    (hex : w.exec n argv = SpawnResult.completed out err code) :
    record rec w n t =
      afterWait rec w n { initResult w n t with shell := some argv } out err code := by
  unfold record
  rw [hmk]
  simp only [if_neg hargv, hex]

/-- When the timeout expires, the process is killed and drained, and `record`
continues with the shared tail `afterWait` on the partial output and the
post-kill exit status. -/
theorem record_of_timedOut (rec : Recorder) (w : World) (n : String) (t : Template)
    (argv : List String) (out err : Bytes) (kc : Int)
    (hmk : makeCommand rec w n t = Except.ok argv) (hargv : argv ≠ [])
    (hex : w.exec n argv = SpawnResult.timedOut out err kc) :
    record rec w n t =
      afterWait rec w n { initResult w n t with shell := some argv } out err kc := by
  unfold record
  rw [hmk]
  simp only [if_neg hargv, hex]

/-- When the fatal-stderr condition does not trigger, `afterWait` returns a
successful `Result` with all remaining fields set and the non-empty streams
persisted. -/
theorem afterWait_nonfatal (rec : Recorder) (w : World) (n : String) (res : Result)
    (out err : Bytes) (code : Int) (hnf : ¬(err ≠ [] ∧ rec.errors_fatal)) :
    afterWait rec w n res out err code =
      RecOutcome.done
        { res with exectime := some (w.execDur n),
                   stdout_file := (saveNonzero rec (n ++ ".out") out).1,
                   stderr_file := (saveNonzero rec (n ++ ".err") err).1,
                   iotime := some (w.ioDur n), return_code := some code, success := true }
        ((saveNonzero rec (n ++ ".out") out).2 ++ (saveNonzero rec (n ++ ".err") err).2) := by
  unfold afterWait
  simp only [if_neg hnf]

/-- When stderr is non-empty and errors are fatal, `afterWait` raises the
ValueError after the writes, discarding the partial `Result` (whose
`iotime`, `return_code` and `success` fields were never set). -/
theorem afterWait_fatal (rec : Recorder) (w : World) (n : String) (res : Result)
    (out err : Bytes) (code : Int) (herr : err ≠ []) (hf : rec.errors_fatal = true) :
    afterWait rec w n res out err code =
      RecOutcome.fatalStderr
        { res with exectime := some (w.execDur n),
                   stdout_file := (saveNonzero rec (n ++ ".out") out).1,
                   stderr_file := (saveNonzero rec (n ++ ".err") err).1 }
        ((saveNonzero rec (n ++ ".out") out).2 ++ (saveNonzero rec (n ++ ".err") err).2) := by
  unfold afterWait
  simp only [if_pos (And.intro herr hf)]

/-- The filename `_save_nonzero` records: present iff the data is non-empty. -/
theorem saveNonzero_fst (rec : Recorder) (f : String) (d : Bytes) :
    (saveNonzero rec f d).1 = if d = [] then none else some (savePath rec f) := by
  unfold saveNonzero
  split <;> rfl

/-- The write `_save_nonzero` performs: present iff the data is non-empty. -/
theorem saveNonzero_snd (rec : Recorder) (f : String) (d : Bytes) :
    (saveNonzero rec f d).2 = if d = [] then [] else [⟨savePath rec f, d⟩] := by
  unfold saveNonzero
  split <;> rfl

/-- Both branches of `afterWait` perform exactly the `_save_nonzero` writes
(the files are written before the fatal-stderr check). -/
theorem afterWait_writes (rec : Recorder) (w : World) (n : String) (res : Result)
    (out err : Bytes) (code : Int) :
    recWrites (afterWait rec w n res out err code) =
      (saveNonzero rec (n ++ ".out") out).2 ++ (saveNonzero rec (n ++ ".err") err).2 := by
  unfold afterWait
  split <;> rfl

/-- Inversion of the fatal-stderr escape: the discarded partial `Result` has
`iotime`, `return_code` and `success` still at their defaults, its
`stderr_file` already points at `outdir/name.err`, and that file was
already written (with the non-empty stderr data) before the raise. -/
theorem record_fatal_inv (rec : Recorder) (w : World) (n : String) (t : Template)
    (res : Result) (ws : List FileWrite)
    (h : record rec w n t = RecOutcome.fatalStderr res ws) :
    res.iotime = none ∧ res.return_code = none ∧ res.success = false ∧
      res.stderr_file = some (savePath rec (n ++ ".err")) ∧
      ∃ d, d ≠ [] ∧ (⟨savePath rec (n ++ ".err"), d⟩ : FileWrite) ∈ ws := by
  unfold record at h
  split at h
  · simp at h
  · split at h
    · simp at h
    · split at h
      · simp at h
      · simp at h
      · unfold afterWait at h
        split at h
        · rename_i out err code hexeq hc
          rw [RecOutcome.fatalStderr.injEq] at h
          obtain ⟨h1, h2⟩ := h
          subst h1
          subst h2
          refine ⟨rfl, rfl, rfl, ?_, ?_⟩
          · show (saveNonzero rec (n ++ ".err") err).1 = some (savePath rec (n ++ ".err"))
            rw [saveNonzero_fst, if_neg hc.1]
          · refine ⟨err, hc.1, ?_⟩
            show _ ∈ (saveNonzero rec (n ++ ".out") out).2 ++ (saveNonzero rec (n ++ ".err") err).2
            rw [saveNonzero_snd (d := err), if_neg hc.1]
            exact List.mem_append_right _ (List.mem_singleton.mpr rfl)
        · simp at h
      · unfold afterWait at h
        split at h
        · rename_i out err code hexeq hc
          rw [RecOutcome.fatalStderr.injEq] at h
          obtain ⟨h1, h2⟩ := h
          subst h1
          subst h2
          refine ⟨rfl, rfl, rfl, ?_, ?_⟩
          · show (saveNonzero rec (n ++ ".err") err).1 = some (savePath rec (n ++ ".err"))
            rw [saveNonzero_fst, if_neg hc.1]
          · refine ⟨err, hc.1, ?_⟩
            show _ ∈ (saveNonzero rec (n ++ ".out") out).2 ++ (saveNonzero rec (n ++ ".err") err).2
            rw [saveNonzero_snd (d := err), if_neg hc.1]
            exact List.mem_append_right _ (List.mem_singleton.mpr rfl)
        · simp at h

/-! ### Lemmas for `recordAll` -/

theorem recordAll_cons_done (rec : Recorder) (w : World) (n : String) (t : Template)
    (rest : List (String × Template)) (res : Result) (ws : List FileWrite)
    (rs : List (String × Result)) (ws2 : List FileWrite)
    (h : record rec w n t = RecOutcome.done res ws)
    (h2 : recordAll rec w rest = RunOutcome.done rs ws2) :
    recordAll rec w ((n, t) :: rest) = RunOutcome.done ((n, res) :: rs) (ws ++ ws2) := by
  unfold recordAll
  rw [h, h2]

theorem recordAll_cons_done_aborted (rec : Recorder) (w : World) (n : String) (t : Template)
    (rest : List (String × Template)) (res : Result) (ws : List FileWrite)
    (ws2 : List FileWrite)
    (h : record rec w n t = RecOutcome.done res ws)
    (h2 : recordAll rec w rest = RunOutcome.aborted ws2) :
    recordAll rec w ((n, t) :: rest) = RunOutcome.aborted (ws ++ ws2) := by
  unfold recordAll
  rw [h, h2]

theorem recordAll_cons_fatal (rec : Recorder) (w : World) (n : String) (t : Template)
    (rest : List (String × Template)) (res : Result) (ws : List FileWrite)
    (h : record rec w n t = RecOutcome.fatalStderr res ws) :
    recordAll rec w ((n, t) :: rest) = RunOutcome.aborted ws := by
  unfold recordAll
  rw [h]

/-- When every entry before `(n, t)` returns a `Result` and `(n, t)` trips
the fatal-stderr ValueError, `record_all` aborts: the file writes of the
completed prefix and of the aborting entry persist, no results mapping is
produced, and the entries after `(n, t)` are never processed (the outcome
coincides with that of the catalog truncated right after `(n, t)`). -/
theorem recordAll_append_fatal (rec : Recorder) (w : World)
    (pre : List (String × Template)) (n : String) (t : Template)
    (post : List (String × Template)) (res : Result) (ws : List FileWrite)
    (hpre : ∀ p ∈ pre, ∃ r ws0, record rec w p.1 p.2 = RecOutcome.done r ws0)
    (h : record rec w n t = RecOutcome.fatalStderr res ws) :
    (∃ wsPre, recordAll rec w (pre ++ (n, t) :: post) = RunOutcome.aborted (wsPre ++ ws)) ∧
      recordAll rec w (pre ++ (n, t) :: post) = recordAll rec w (pre ++ [(n, t)]) := by
  induction pre with
  | nil =>
    simp only [List.nil_append]
    rw [recordAll_cons_fatal rec w n t post res ws h,
      recordAll_cons_fatal rec w n t [] res ws h]
    exact ⟨⟨[], by simp⟩, rfl⟩
  | cons p pre ih =>
    obtain ⟨r, ws0, hp⟩ := hpre p (List.mem_cons_self p pre)
    have hpre2 : ∀ q ∈ pre, ∃ r2 ws2, record rec w q.1 q.2 = RecOutcome.done r2 ws2 :=
      fun q hq => hpre q (List.mem_cons_of_mem p hq)
    obtain ⟨⟨wsPre, hab⟩, heq⟩ := ih hpre2
    have hcons := recordAll_cons_done_aborted rec w p.1 p.2 (pre ++ (n, t) :: post)
      r ws0 (wsPre ++ ws) (by rw [← Prod.mk.eta (p := p)] at hp; exact hp) hab
    constructor
    · exact ⟨ws0 ++ wsPre, by
        rw [List.cons_append, ← Prod.mk.eta (p := p), List.append_assoc]
        exact hcons⟩
    · rw [List.cons_append, List.cons_append, ← Prod.mk.eta (p := p)]
      unfold recordAll
      rw [hp, heq]

/-- With the errors-fatal flag disabled, `record` never raises the
fatal-stderr ValueError. -/
theorem record_no_fatal_of_flag_off (rec : Recorder) (w : World) (n : String)
    (t : Template) (hf : rec.errors_fatal = false) (res : Result) (ws : List FileWrite) :
    record rec w n t ≠ RecOutcome.fatalStderr res ws := by
  unfold record
  cases hmk : makeCommand rec w n t with
  | error v => simp
  | ok argv =>
    by_cases hargv : argv = []
    · simp [hargv]
    · simp only [if_neg hargv]
      cases hex : w.exec n argv with
      | fileNotFound msg => simp
      | calledProcessError c => simp
      | completed out err code =>
        unfold afterWait
        simp only [hf]
        simp
      | timedOut out err kc =>
        unfold afterWait
        simp only [hf]
        simp

/-- With the errors-fatal flag disabled, `record` returns a `Result` for
every entry whose expanded command does not split to an empty argument
vector (the only remaining escape is the AssertionError of line 185). -/
theorem record_done_of_flag_off (rec : Recorder) (w : World) (n : String)
    (t : Template) (hf : rec.errors_fatal = false)
    (hargv : makeCommand rec w n t ≠ Except.ok []) :
    ∃ r ws, record rec w n t = RecOutcome.done r ws := by
  unfold record
  cases hmk : makeCommand rec w n t with
  | error v => exact ⟨_, _, rfl⟩
  | ok argv =>
    have hne : argv ≠ [] := by
      intro hnil
      exact hargv (hnil ▸ hmk)
    simp only [if_neg hne]
    cases hex : w.exec n argv with
    | fileNotFound msg => exact ⟨_, _, rfl⟩
    | calledProcessError c => exact ⟨_, _, rfl⟩
    | completed out err code =>
      unfold afterWait
      simp only [hf, Bool.false_eq_true, and_false, if_false]
      exact ⟨_, _, rfl⟩
    | timedOut out err kc =>
      unfold afterWait
      simp only [hf, Bool.false_eq_true, and_false, if_false]
      exact ⟨_, _, rfl⟩

/-! ### Lemma for template expansion -/

/-- If some referenced placeholder is undefined in `params`, formatting
fails with a KeyError naming an undefined referenced placeholder (the
leftmost one). -/
theorem formatTemplate_error_of_missing (params : List (String × String))
    (tpl : Template) (v : String) (hv : Tok.ph v ∈ tpl)
    (hmiss : lookupParam params v = none) :
    ∃ v2, formatTemplate params tpl = Except.error v2 ∧
      Tok.ph v2 ∈ tpl ∧ lookupParam params v2 = none := by
  induction tpl with
  | nil => cases hv
  | cons tok rest ih =>
    cases tok with
    | lit s =>
      have hv2 : Tok.ph v ∈ rest := by
        cases hv with
        | tail _ h => exact h
      obtain ⟨v2, herr, hmem, hm⟩ := ih hv2
      exact ⟨v2, by simp [formatTemplate, herr, Except.map], List.mem_cons_of_mem _ hmem, hm⟩
    | ph u =>
      cases hu : lookupParam params u with
      | none =>
        exact ⟨u, by simp [formatTemplate, hu], List.mem_cons_self _ _, hu⟩
      | some val =>
        have hv2 : Tok.ph v ∈ rest := by
          cases hv with
          | head => rw [hu] at hmiss; cases hmiss
          | tail _ h => exact h
        obtain ⟨v2, herr, hmem, hm⟩ := ih hv2
        exact ⟨v2, by simp [formatTemplate, hu, herr, Except.map], List.mem_cons_of_mem _ hmem, hm⟩

/-! ### Claims -/

/-- C1: with the errors-fatal flag enabled, a command whose process writes
non-empty stderr makes `record_all` stop before processing any subsequent
catalog entry — the ValueError escapes `record` and `record_all` as an
explicit error (the run's outcome coincides with that of the catalog
truncated right after the offending entry); with the flag disabled, such a
command still yields a `Result` and `record_all` proceeds to the following
entries, regardless of the command's stderr output. -/
theorem errors_fatal_policy_halts (rec : Recorder) (w : World)
    (pre post : List (String × Template)) (n : String) (t : Template)
    (argv : List String) (out err : Bytes) (code : Int)
    (hpre : ∀ p ∈ pre, ∃ r ws0, record rec w p.1 p.2 = RecOutcome.done r ws0)
    (hmk : makeCommand rec w n t = Except.ok argv) (hargv : argv ≠ [])
    (hex : w.exec n argv = SpawnResult.completed out err code ∨
           w.exec n argv = SpawnResult.timedOut out err code)
    (herr : err ≠ []) :
    (rec.errors_fatal = true →
      (∃ wsAll, recordAll rec w (pre ++ (n, t) :: post) = RunOutcome.aborted wsAll) ∧
        recordAll rec w (pre ++ (n, t) :: post) = recordAll rec w (pre ++ [(n, t)])) ∧
    (rec.errors_fatal = false →
      ∃ r ws, record rec w n t = RecOutcome.done r ws ∧
        ∀ rest rs ws2, recordAll rec w rest = RunOutcome.done rs ws2 →
          recordAll rec w ((n, t) :: rest) = RunOutcome.done ((n, r) :: rs) (ws ++ ws2)) := by
  constructor
  · intro hf
    have hrec : ∃ res ws, record rec w n t = RecOutcome.fatalStderr res ws := by
      cases hex with
      | inl hc =>
        rw [record_of_completed rec w n t argv out err code hmk hargv hc,
          afterWait_fatal rec w n _ out err code herr hf]
        exact ⟨_, _, rfl⟩
      | inr hc =>
        rw [record_of_timedOut rec w n t argv out err code hmk hargv hc,
          afterWait_fatal rec w n _ out err code herr hf]
        exact ⟨_, _, rfl⟩
    obtain ⟨res, ws, hrec⟩ := hrec
    obtain ⟨⟨wsPre, hab⟩, heq⟩ := recordAll_append_fatal rec w pre n t post res ws hpre hrec
    exact ⟨⟨wsPre ++ ws, hab⟩, heq⟩
  · intro hf
    have hnf : ¬(err ≠ [] ∧ rec.errors_fatal) := by
      rintro ⟨-, hc⟩
      rw [hf] at hc
      exact Bool.false_ne_true hc
    have hrec : ∃ r ws, record rec w n t = RecOutcome.done r ws := by
      cases hex with
      | inl hc =>
        rw [record_of_completed rec w n t argv out err code hmk hargv hc,
          afterWait_nonfatal rec w n _ out err code hnf]
        exact ⟨_, _, rfl⟩
      | inr hc =>
        rw [record_of_timedOut rec w n t argv out err code hmk hargv hc,
          afterWait_nonfatal rec w n _ out err code hnf]
        exact ⟨_, _, rfl⟩
    obtain ⟨r, ws, hr⟩ := hrec
    exact ⟨r, ws, hr, fun rest rs ws2 h2 => recordAll_cons_done rec w n t rest r ws rs ws2 hr h2⟩

/-- Witness for C1: with errors-fatal enabled, a catalog whose first entry
writes the byte `1` to stderr aborts before its second entry. -/
theorem errors_fatal_policy_halts_witness :
    recFatal.errors_fatal = true ∧
    (recordAll recFatal wStderr [("err", tplErr), ("next", tplEcho)]).isDone = false := by
  have h := errors_fatal_policy_halts recFatal wStderr [] [("next", tplEcho)] "err" tplErr
    ["ls /nope"] [] [49] 0 (fun p hp => absurd hp (List.not_mem_nil p))
    rfl (by decide) (Or.inl rfl) (by decide)
  obtain ⟨wsAll, hab⟩ := (h.1 rfl).1
  simp only [List.nil_append] at hab
  exact ⟨rfl, by rw [hab]; rfl⟩

/-- C2 counterexample: a command that exceeds the timeout while errors are
fatal and whose drained partial stderr is non-empty does not return a
`Result` marked successful — the fatal-stderr ValueError escapes `record`,
so the run does not continue to the next catalog entry. -/
theorem timeout_fatal_stderr_escapes_cex :
    (record recFatal wTimeoutStderr "slow" tplSleep).isDone = false := by decide

/-- C2 (amended): for every command whose process does not exit within the
timeout, provided the fatal-stderr condition does not trigger (errors-fatal
disabled, or the drained partial stderr empty), `record` kills the process,
drains and persists the non-empty partial streams, and still returns a
`Result` with `success = true`; the run continues to the next catalog
entry. -/
theorem timeout_returns_success_nonfatal (rec : Recorder) (w : World)
    (n : String) (t : Template) (argv : List String) (out err : Bytes) (kc : Int)
    (hmk : makeCommand rec w n t = Except.ok argv) (hargv : argv ≠ [])
    (hex : w.exec n argv = SpawnResult.timedOut out err kc)
    (hnf : ¬(err ≠ [] ∧ rec.errors_fatal)) :
    ∃ res, record rec w n t =
        RecOutcome.done res
          ((if out = [] then [] else [⟨savePath rec (n ++ ".out"), out⟩]) ++
            (if err = [] then [] else [⟨savePath rec (n ++ ".err"), err⟩])) ∧
      res.success = true ∧
      res.stdout_file = (if out = [] then none else some (savePath rec (n ++ ".out"))) ∧
      res.stderr_file = (if err = [] then none else some (savePath rec (n ++ ".err"))) ∧
      ∀ rest rs ws2, recordAll rec w rest = RunOutcome.done rs ws2 →
        recordAll rec w ((n, t) :: rest) =
          RunOutcome.done ((n, res) :: rs)
            (((if out = [] then [] else [⟨savePath rec (n ++ ".out"), out⟩]) ++
              (if err = [] then [] else [⟨savePath rec (n ++ ".err"), err⟩])) ++ ws2) := by
  have hr := record_of_timedOut rec w n t argv out err kc hmk hargv hex
  rw [afterWait_nonfatal rec w n _ out err kc hnf] at hr
  rw [saveNonzero_fst, saveNonzero_fst, saveNonzero_snd, saveNonzero_snd] at hr
  exact ⟨_, hr, rfl, rfl, rfl,
    fun rest rs ws2 h2 => recordAll_cons_done rec w n t rest _ _ rs ws2 hr h2⟩

/-- Witness for C2 (amended): with errors-fatal disabled, a timed-out
command with the byte `1` of partial stderr still yields a `Result`. -/
theorem timeout_returns_success_nonfatal_witness :
    (¬(([49] : Bytes) ≠ [] ∧ recPlain.errors_fatal)) ∧
    (record recPlain wTimeoutStderr "slow" tplSleep).isDone = true := by
  refine ⟨by decide, ?_⟩
  obtain ⟨res, hr, -, -, -, -⟩ := timeout_returns_success_nonfatal recPlain wTimeoutStderr
    "slow" tplSleep ["sleep 99"] [] [49] (-9) rfl (by decide) rfl (by decide)
  rw [hr]
  rfl

/-- C3 counterexample: a command killed due to timeout returns a `Result`
whose `return_code` is present, namely the post-kill exit status -9 — not
absent as claimed. -/
theorem timeout_return_code_present_cex :
    recReturnCode (record recPlain wTimeoutQuiet "slow" tplSleep) = some (-9) := by decide

/-- C3 (amended): for every command killed due to timeout (fatal-stderr
condition not triggering), the returned `Result` is marked successful and
its `return_code` is the post-kill exit status of the killed process (not
absent); the timed-out command is distinguished only by the logged warning,
not by a missing `return_code`. -/
theorem timeout_return_code_is_kill_code (rec : Recorder) (w : World)
    (n : String) (t : Template) (argv : List String) (out err : Bytes) (kc : Int)
    (hmk : makeCommand rec w n t = Except.ok argv) (hargv : argv ≠ [])
    (hex : w.exec n argv = SpawnResult.timedOut out err kc)
    (hnf : ¬(err ≠ [] ∧ rec.errors_fatal)) :
    ∃ res ws, record rec w n t = RecOutcome.done res ws ∧
      res.return_code = some kc ∧ res.success = true := by
  have hr := record_of_timedOut rec w n t argv out err kc hmk hargv hex
  rw [afterWait_nonfatal rec w n _ out err kc hnf] at hr
  exact ⟨_, _, hr, rfl, rfl⟩

/-- Witness for C3 (amended): a timed-out command returns a `Result` with
`return_code = some (-9)`. -/
theorem timeout_return_code_is_kill_code_witness :
    (record recPlain wTimeoutQuiet "slow" tplSleep).isDone = true ∧
    recReturnCode (record recPlain wTimeoutQuiet "slow" tplSleep) = some (-9) := by
  obtain ⟨res, ws, hr, hrc, hsucc⟩ := timeout_return_code_is_kill_code recPlain wTimeoutQuiet
    "slow" tplSleep ["sleep 99"] [50] [] (-9) rfl (by decide) rfl (by decide)
  exact ⟨by rw [hr]; rfl, by rw [hr]; exact hrc⟩

/-- C4 counterexample: with errors-fatal disabled, a catalog whose single
entry is the empty command template produces no results mapping at all —
the empty string splits to an empty argument vector, `assert res.shell`
fails, and the AssertionError escapes `record_all`. -/
theorem record_all_empty_command_aborts_cex :
    recPlain.errors_fatal = false ∧
    (recordAll recPlain wQuiet [("empty", tplEmptyCmd)]).isDone = false := by decide

/-- C4 (amended): when errors-fatal is disabled and every catalog entry's
expanded command splits to a non-empty argument vector, `record_all`
returns a mapping with exactly one `Result` per catalog entry, keyed by the
catalog's keys in catalog insertion order, regardless of individual
per-command failures.  (An entry splitting to an empty vector instead trips
the line-185 assert, which escapes `record_all`.) -/
theorem record_all_one_result_per_entry (rec : Recorder) (w : World)
    (catalog : List (String × Template)) (hf : rec.errors_fatal = false)
    (hargv : ∀ p ∈ catalog, makeCommand rec w p.1 p.2 ≠ Except.ok []) :
    ∃ rs ws, recordAll rec w catalog = RunOutcome.done rs ws ∧
      rs.map Prod.fst = catalog.map Prod.fst := by
  induction catalog with
  | nil => exact ⟨[], [], rfl, rfl⟩
  | cons p rest ih =>
    obtain ⟨r, ws0, hp⟩ := record_done_of_flag_off rec w p.1 p.2 hf
      (hargv p (List.mem_cons_self p rest))
    obtain ⟨rs, ws, hrest, hkeys⟩ := ih (fun q hq => hargv q (List.mem_cons_of_mem p hq))
    refine ⟨(p.1, r) :: rs, ws0 ++ ws, ?_, ?_⟩
    · rw [← Prod.mk.eta (p := p)]
      exact recordAll_cons_done rec w p.1 p.2 rest r ws0 rs ws hp hrest
    · simp [hkeys]

/-- Witness for C4 (amended): a two-entry catalog yields a results mapping. -/
theorem record_all_one_result_per_entry_witness :
    recPlain.errors_fatal = false ∧
    (recordAll recPlain wEcho [("echo", tplEcho), ("echo2", tplErr)]).isDone = true := by
  obtain ⟨rs, ws, hdone, hkeys⟩ := record_all_one_result_per_entry recPlain wEcho
    [("echo", tplEcho), ("echo2", tplErr)] rfl
    (by
      intro p hp
      rcases List.mem_cons.mp hp with rfl | hp2
      · exact fun hc => List.cons_ne_nil _ _ (Except.ok.inj hc)
      rcases List.mem_cons.mp hp2 with rfl | hp3
      · exact fun hc => List.cons_ne_nil _ _ (Except.ok.inj hc)
      · exact absurd hp3 (List.not_mem_nil p))
  exact ⟨rfl, by rw [hdone]; rfl⟩

/-- C5: for every command that completes, a stream is persisted to
`outdir/name.out` (resp. `outdir/name.err`) exactly when it is non-empty;
in particular a command with empty stdout and empty stderr creates no
files, and the returned `Result` has `stdout_file` and `stderr_file`
present exactly for the non-empty streams (both absent when both streams
are empty). -/
theorem record_persists_exactly_nonempty (rec : Recorder) (w : World)
    (n : String) (t : Template) (argv : List String) (out err : Bytes) (code : Int)
    (hmk : makeCommand rec w n t = Except.ok argv) (hargv : argv ≠ [])
    (hex : w.exec n argv = SpawnResult.completed out err code) :
    recWrites (record rec w n t) =
      (if out = [] then [] else [⟨savePath rec (n ++ ".out"), out⟩]) ++
        (if err = [] then [] else [⟨savePath rec (n ++ ".err"), err⟩]) ∧
    (¬(err ≠ [] ∧ rec.errors_fatal) →
      ∃ res, record rec w n t = RecOutcome.done res (recWrites (record rec w n t)) ∧
        res.stdout_file = (if out = [] then none else some (savePath rec (n ++ ".out"))) ∧
        res.stderr_file = (if err = [] then none else some (savePath rec (n ++ ".err")))) := by
  have hr := record_of_completed rec w n t argv out err code hmk hargv hex
  constructor
  · rw [hr, afterWait_writes, saveNonzero_snd, saveNonzero_snd]
  · intro hnf
    rw [hr, afterWait_nonfatal rec w n _ out err code hnf]
    rw [saveNonzero_fst, saveNonzero_fst, saveNonzero_snd, saveNonzero_snd]
    exact ⟨_, rfl, rfl, rfl⟩

/-- Witness for C5: a silently completing command creates no files and its
`Result` has `stdout_file` absent. -/
theorem record_persists_exactly_nonempty_witness :
    recWrites (record recPlain wQuiet "quiet" tplEcho) = [] ∧
    recStdoutFile (record recPlain wQuiet "quiet" tplEcho) = none := by
  obtain ⟨hw, hdone⟩ := record_persists_exactly_nonempty recPlain wQuiet "quiet" tplEcho
    ["echo hello"] [] [] 0 rfl (by decide) rfl
  refine ⟨hw, ?_⟩
  obtain ⟨res, hres, hso, hse⟩ := hdone (by decide)
  rw [hres]
  exact hso

/-- C6: a command template referencing a placeholder that is neither
`outdir`, `name`, `command` nor a defined environment variable makes
`record` return a failed `Result` whose `error_message` names an undefined
referenced placeholder; no output files are created for the entry and the
run continues to the next catalog entry. -/
theorem record_undefined_placeholder_fails (rec : Recorder) (w : World)
    (n : String) (tpl : Template) (v : String) (rest : List (String × Template))
    (hv : Tok.ph v ∈ tpl) (hmiss : lookupParam (mkParams rec w n tpl) v = none) :
    ∃ v2 res, Tok.ph v2 ∈ tpl ∧ lookupParam (mkParams rec w n tpl) v2 = none ∧
      record rec w n tpl = RecOutcome.done res [] ∧
      res.success = false ∧ res.error_message = some (keyErrorMsg v2) ∧
      res.stdout_file = none ∧ res.stderr_file = none ∧
      ∀ rs ws2, recordAll rec w rest = RunOutcome.done rs ws2 →
        recordAll rec w ((n, tpl) :: rest) = RunOutcome.done ((n, res) :: rs) ws2 := by
  obtain ⟨v2, herr, hmem, hm⟩ := formatTemplate_error_of_missing _ tpl v hv hmiss
  have hmk : makeCommand rec w n tpl = Except.error v2 := by
    unfold makeCommand
    rw [herr]
  have hr := record_of_mk_error rec w n tpl v2 hmk
  refine ⟨v2, _, hmem, hm, hr, rfl, rfl, rfl, rfl, fun rs ws2 h2 => ?_⟩
  simpa using recordAll_cons_done rec w n tpl rest _ [] rs ws2 hr h2

/-- Witness for C6: the `scontrol` catalog entry with `SLURM_JOBID` not in
the environment yields the KeyError message and no files. -/
theorem record_undefined_placeholder_fails_witness :
    Tok.ph "SLURM_JOBID" ∈ tplUndef ∧
    lookupParam (mkParams recPlain wQuiet "scontrol" tplUndef) "SLURM_JOBID" = none ∧
    (record recPlain wQuiet "scontrol" tplUndef).isDone = true ∧
    recErrorMessage (record recPlain wQuiet "scontrol" tplUndef) =
      some (keyErrorMsg "SLURM_JOBID") ∧
    recWrites (record recPlain wQuiet "scontrol" tplUndef) = [] := by
  obtain ⟨v2, res, hmem, hm, hr, hsucc, hem, hso, hse, hcont⟩ :=
    record_undefined_placeholder_fails recPlain wQuiet "scontrol" tplUndef "SLURM_JOBID" []
      (by decide) (by decide)
  exact ⟨by decide, by decide, by rw [hr]; rfl, by decide, by rw [hr]; rfl⟩

/-- C7: when spawning the command raises FileNotFoundError, `record`
returns a `Result` with `success = false`, `return_code` and `exectime`
absent, and an `error_message` carrying the FileNotFoundError text; no
files are created and the run continues to the next catalog entry. -/
theorem record_spawn_failure_result (rec : Recorder) (w : World)
    (n : String) (t : Template) (argv : List String) (msg : String)
    (rest : List (String × Template))
    (hmk : makeCommand rec w n t = Except.ok argv) (hargv : argv ≠ [])
    (hex : w.exec n argv = SpawnResult.fileNotFound msg) :
    ∃ res, record rec w n t = RecOutcome.done res [] ∧
      res.success = false ∧ res.return_code = none ∧ res.exectime = none ∧
      res.error_message = some ("FileNotFoundError: " ++ msg) ∧
      ∀ rs ws2, recordAll rec w rest = RunOutcome.done rs ws2 →
        recordAll rec w ((n, t) :: rest) = RunOutcome.done ((n, res) :: rs) ws2 := by
  have hr := record_of_fnf rec w n t argv msg hmk hargv hex
  refine ⟨_, hr, rfl, rfl, rfl, rfl, fun rs ws2 h2 => ?_⟩
  simpa using recordAll_cons_done rec w n t rest _ [] rs ws2 hr h2

/-- Witness for C7: spawning a nonexistent binary yields a failed `Result`
with no `return_code` and the FileNotFoundError message. -/
theorem record_spawn_failure_result_witness :
    (record recPlain wNoBinary "bad" tplErr).isDone = true ∧
    recReturnCode (record recPlain wNoBinary "bad" tplErr) = none ∧
    recErrorMessage (record recPlain wNoBinary "bad" tplErr) =
      some ("FileNotFoundError: Errno 2 No such file or directory: /nonexistent-binary-xyz") := by
  obtain ⟨res, hr, hsucc, hrc, het, hem, hcont⟩ := record_spawn_failure_result recPlain wNoBinary
    "bad" tplErr ["ls /nope"] "Errno 2 No such file or directory: /nonexistent-binary-xyz" []
    rfl (by decide) rfl
  exact ⟨by rw [hr]; rfl, by rw [hr]; exact hrc, by rw [hr]; exact hem⟩

/-- C8 counterexample: a command that exits normally (here with code 7) but
writes to stderr while errors are fatal does not yield a successful
`Result` — the fatal-stderr ValueError escapes `record` instead. -/
theorem normal_exit_fatal_stderr_escapes_cex :
    (record recFatal wExit7Stderr "x" tplErr).isDone = false := by decide

/-- C8 (amended): for every command that exits normally within the timeout,
provided the fatal-stderr condition does not trigger (errors-fatal disabled
or stderr empty), `record` marks `success = true` regardless of the exit
code and stores the exit code in `return_code`. -/
theorem normal_exit_success_any_code (rec : Recorder) (w : World)
    (n : String) (t : Template) (argv : List String) (out err : Bytes) (code : Int)
    (hmk : makeCommand rec w n t = Except.ok argv) (hargv : argv ≠ [])
    (hex : w.exec n argv = SpawnResult.completed out err code)
    (hnf : ¬(err ≠ [] ∧ rec.errors_fatal)) :
    ∃ res ws, record rec w n t = RecOutcome.done res ws ∧
      res.success = true ∧ res.return_code = some code := by
  have hr := record_of_completed rec w n t argv out err code hmk hargv hex
  rw [afterWait_nonfatal rec w n _ out err code hnf] at hr
  exact ⟨_, _, hr, rfl, rfl⟩

/-- Witness for C8 (amended): a command exiting with the non-zero code 7 is
still a successful `Result` recording `return_code = some 7`. -/
theorem normal_exit_success_any_code_witness :
    (record recPlain wExit7 "false7" tplErr).isDone = true ∧
    recReturnCode (record recPlain wExit7 "false7" tplErr) = some 7 := by
  obtain ⟨res, ws, hr, hsucc, hrc⟩ := normal_exit_success_any_code recPlain wExit7 "false7"
    tplErr ["ls /nope"] [104] [] 7 rfl (by decide) rfl (by decide)
  exact ⟨by rw [hr]; rfl, by rw [hr]; exact hrc⟩

/-- C9: every `Result` returned by `record` has `error_message` absent if
and only if `success` is true — the message is set on every caught failure
path and never on the success path. -/
theorem record_error_message_iff_failure (rec : Recorder) (w : World) (n : String)
    (t : Template) (res : Result) (ws : List FileWrite)
    (h : record rec w n t = RecOutcome.done res ws) :
    res.error_message = none ↔ res.success = true := by
  unfold record at h
  split at h
  · rw [RecOutcome.done.injEq] at h
    obtain ⟨h1, -⟩ := h
    subst h1
    simp [initResult, keyErrorMsg]
  · split at h
    · simp at h
    · split at h
      · rw [RecOutcome.done.injEq] at h
        obtain ⟨h1, -⟩ := h
        subst h1
        simp [initResult]
      · rw [RecOutcome.done.injEq] at h
        obtain ⟨h1, -⟩ := h
        subst h1
        simp [initResult]
      · unfold afterWait at h
        split at h
        · simp at h
        · rw [RecOutcome.done.injEq] at h
          obtain ⟨h1, -⟩ := h
          subst h1
          simp [initResult]
      · unfold afterWait at h
        split at h
        · simp at h
        · rw [RecOutcome.done.injEq] at h
          obtain ⟨h1, -⟩ := h
          subst h1
          simp [initResult]

/-- Witness for C9: the successful `echo` entry has no `error_message`. -/
theorem record_error_message_iff_failure_witness :
    record recPlain wEcho "echo" tplEcho = RecOutcome.done resEcho wsEcho ∧
    (resEcho.error_message = none ↔ resEcho.success = true) := by
  have h : record recPlain wEcho "echo" tplEcho = RecOutcome.done resEcho wsEcho := by decide
  exact ⟨h, record_error_message_iff_failure recPlain wEcho "echo" tplEcho resEcho wsEcho h⟩

/-- C10: when the fatal-stderr ValueError escapes, `record_all` produces no
results mapping at all — neither the aborting entry's partial `Result`
(whose `iotime`, `return_code` and `success` were never set, though its
stderr file was already written to disk) nor the `Result`s of previously
completed entries appear in any value `record_all` produces; only the file
writes persist. -/
theorem fatal_stderr_aborts_without_results (rec : Recorder) (w : World)
    (pre : List (String × Template)) (n : String) (t : Template)
    (post : List (String × Template)) (res : Result) (ws : List FileWrite)
    (hpre : ∀ p ∈ pre, ∃ r ws0, record rec w p.1 p.2 = RecOutcome.done r ws0)
    (h : record rec w n t = RecOutcome.fatalStderr res ws) :
    res.iotime = none ∧ res.return_code = none ∧ res.success = false ∧
      res.stderr_file = some (savePath rec (n ++ ".err")) ∧
      (∃ d, d ≠ [] ∧ (⟨savePath rec (n ++ ".err"), d⟩ : FileWrite) ∈ ws) ∧
      ∃ wsAll, recordAll rec w (pre ++ (n, t) :: post) = RunOutcome.aborted wsAll := by
  obtain ⟨h1, h2, h3, h4, h5⟩ := record_fatal_inv rec w n t res ws h
  obtain ⟨⟨wsPre, hab⟩, -⟩ := recordAll_append_fatal rec w pre n t post res ws hpre h
  exact ⟨h1, h2, h3, h4, h5, wsPre ++ ws, hab⟩

/-- Witness for C10: entry `bad` writes stderr with errors fatal; its
partial `Result` lacks `iotime`, `return_code` and `success`, its stderr
file was written, and the three-entry run aborts with no results mapping. -/
theorem fatal_stderr_aborts_without_results_witness :
    record recFatal wC10 "bad" tplErr = RecOutcome.fatalStderr resBadFatal wsBadFatal ∧
    resBadFatal.iotime = none ∧ resBadFatal.success = false ∧
    (recordAll recFatal wC10 [("ok", tplEcho), ("bad", tplErr), ("next", tplEcho)]).isDone
      = false := by
  have hfat : record recFatal wC10 "bad" tplErr
      = RecOutcome.fatalStderr resBadFatal wsBadFatal := by decide
  obtain ⟨h1, h2, h3, h4, h5, wsAll, hab⟩ :=
    fatal_stderr_aborts_without_results recFatal wC10 [("ok", tplEcho)] "bad" tplErr
      [("next", tplEcho)] resBadFatal wsBadFatal
      (by
        intro p hp
        rcases List.mem_cons.mp hp with rfl | hp2
        · exact ⟨_, _, rfl⟩
        · exact absurd hp2 (List.not_mem_nil p))
      hfat
  have hlist : [("ok", tplEcho)] ++ ("bad", tplErr) :: [("next", tplEcho)]
      = [("ok", tplEcho), ("bad", tplErr), ("next", tplEcho)] := rfl
  rw [hlist] at hab
  exact ⟨hfat, h1, h3, by rw [hab]; rfl⟩

end GatherMetadata
